import Mathlib

set_option autoImplicit false

/-! Shallow embedding of the credential and access-token management subsystem
of the repository (source file src/earthdaily/earthone/auth/auth.py).  Pure
helper functions are translated directly; stateful methods of the `Auth`
class become explicit state-passing functions over an `AuthState` record.
External collaborators used by the source (the HTTP token endpoint, the
filesystem, hashlib's sha1, and the stdlib base64/utf8/json decoders) are
supplied as explicit parameters, exactly at the call sites where the source
invokes them. -/

/-- Python truthiness of an optional string: `None` and `""` are falsy. -/
def truthyO : Option String → Bool
  | none => false
  | some s => s != ""

/-- Translation of the Python idiom
`next((x for x in xs if x is not None), None)`: the first non-`None` entry. -/
def firstSome : List (Option String) → Option String
  | [] => none
  | none :: rest => firstSome rest
  | some x :: _ => some x

/-- Python `str.split(sep)` (and `bytes.split(sep)`) for a single-element
separator: splitting the empty sequence yields one empty segment, and `n`
separators yield `n + 1` segments. -/
def splitOn {α : Type} [BEq α] (sep : α) : List α → List (List α)
  | [] => [[]]
  | x :: xs =>
    if x == sep then [] :: splitOn sep xs
    else
      match splitOn sep xs with
      | [] => [[x]]
      | h :: t => (x :: h) :: t

/-- Containment of `needle` at the start of a list (helper for substring
containment, used to translate the Python `in` operator on strings). -/
def startsWithL {α : Type} [BEq α] : List α → List α → Bool
  | [], _ => true
  | _ :: _, [] => false
  | a :: as, b :: bs => a == b && startsWithL as bs

/-- Translation of the Python substring test `needle in hay`. -/
def containsSub {α : Type} [BEq α] (needle : List α) : List α → Bool
  | [] => needle.isEmpty
  | x :: xs => startsWithL needle (x :: xs) || containsSub needle xs

/-- Claims decoded from a token, restricted to the keys the verified
operations inspect (`exp`, `aud`, `org`, `groups`). -/
structure Payload where
  exp : Option Int
  aud : Option String
  org : Option String
  groups : List String
deriving DecidableEq, Repr

/-- Translation of `Auth._token_expired`: with no `exp` claim the token always
counts as expired; otherwise it is expired exactly when `now + leeway > exp`.
The wall-clock reading made by the source is passed in as `now`. -/
def tokenExpired (payload : Payload) (now leeway : Int) : Bool :=
  match payload.exp with
  | some exp => decide (now + leeway > exp)
  | none => true

/-- Translation of `Auth._active_groups`: a group with no colon is always
yielded; a group with a colon is yielded only when the `org` claim is truthy
and equals the part of the group before the first colon. -/
def activeGroups (p : Payload) : List String :=
  p.groups.filter fun group =>
    let parts := splitOn ':' group.toList
    if parts.length = 1 then true
    else
      match p.org with
      | some o => (o != "") && (parts.headD [] == o.toList)
      | none => false

/-- Substring of a string before its first colon (what the source obtains as
`group.split(":")[0]`). -/
def beforeFirstColon (g : String) : String :=
  String.mk (g.toList.takeWhile (fun c => !(c == ':')))

/-- On-disk token-info JSON object, keyed by the fixed key names of the
source (`client_id`, `client_secret`, `refresh_token`, `jwt_token`, the
legacy `JWT_TOKEN`, and `scope`). -/
structure TokenInfo where
  client_id : Option String
  client_secret : Option String
  refresh_token : Option String
  jwt_token : Option String
  alt_jwt_token : Option String
  scope : Option (List String)
deriving DecidableEq, Repr

def emptyTokenInfo : TokenInfo :=
  { client_id := none, client_secret := none, refresh_token := none,
    jwt_token := none, alt_jwt_token := none, scope := none }

/-- Mutable attributes of an `Auth` instance that the verified operations
read or write (`client_id`, `client_secret`, `refresh_token`, `_token`,
`scope`, `leeway`, `token_info_path`, and the memoized payload cache). -/
structure AuthState where
  client_id : Option String
  client_secret : Option String
  refresh_token : Option String
  tok : Option String
  scope : Option (List String)
  leeway : Int
  token_info_path : Option String
  payloadCache : Option Payload
deriving DecidableEq, Repr

/-- Response of the POST to the fixed `/token` path. -/
structure TokenResponse where
  status : Nat
  access_token : Option String
  id_token : Option String
deriving DecidableEq, Repr

/-- Exceptions raised by the token lifecycle code.  `OauthError` is declared
in the repository's exceptions module, which is not under src/.  Modelled
from the spec: section 7 distinguishes a credential error from a
token-exchange error and states that the soft-degrade rule swallows a
transient token-exchange error, so the handler for `AuthError` below catches
both kinds (`OauthError` is a subclass of `AuthError`). -/
inductive AuthException where
  | authError (msg : String)
  | oauthError (msg : String)
deriving DecidableEq, Repr

/-- Observable side effects of one token-lifecycle operation: the number of
network POSTs to the token endpoint and of token-info cache-file writes. -/
structure Effects where
  posts : Nat
  writes : Nat
deriving DecidableEq, Repr

/-- Environment of a token access: the pure claims decoder standing for
`Auth._get_payload` on string tokens, the current wall-clock time, and the
response the token endpoint would give if called. -/
structure TokenEnv where
  decode : String → Except String Payload
  now : Int
  response : TokenResponse

/-- Translation of `Auth._get_token` (the refresh procedure): fail with an
`AuthError` when `client_id`, or both `client_secret` and `refresh_token`,
are `None`; otherwise POST to the token endpoint; a non-200 status or a
response with neither `access_token` nor `id_token` is an `OauthError`; on
success store the new token, clear the payload cache, and (when a
token-info path is configured) persist the token info to disk. -/
def refresh (env : TokenEnv) (s : AuthState) :
    Except AuthException String × AuthState × Effects :=
  match s.client_id with
  | none => (Except.error (AuthException.authError "no client_id"), s, ⟨0, 0⟩)
  | some _ =>
    if s.client_secret.isNone && s.refresh_token.isNone then
      (Except.error (AuthException.authError "no client_secret or refresh_token"),
        s, ⟨0, 0⟩)
    else
      let r := env.response
      if r.status ≠ 200 then
        (Except.error (AuthException.oauthError "Could not retrieve token"),
          s, ⟨1, 0⟩)
      else
        match r.access_token, r.id_token with
        | some t, _ =>
          (Except.ok t, { s with tok := some t, payloadCache := none },
            ⟨1, if truthyO s.token_info_path then 1 else 0⟩)
        | none, some t =>
          (Except.ok t, { s with tok := some t, payloadCache := none },
            ⟨1, if truthyO s.token_info_path then 1 else 0⟩)
        | none, none =>
          (Except.error (AuthException.oauthError "Could not retrieve token"),
            s, ⟨1, 0⟩)

/-- Modelled from the spec: the exceptions module declaring `AuthError` and
`OauthError` is not under src/.  Section 7 of the spec describes exactly two
error kinds and states that the soft-degrade rule swallows a transient
token-exchange error, so `OauthError` is a subclass of `AuthError` and the
`except AuthError` handler in the `Auth.token` property catches both
constructors of `AuthException`. -/
def catchesAuthError : AuthException → Bool
  | AuthException.authError _ => true
  | AuthException.oauthError _ => true

/-- Translation of the `Auth.token` property: with no stored token, refresh;
otherwise decode the stored token (a decode failure propagates), and if the
expiry falls within the leeway attempt a refresh, swallowing a refresh
failure caught by the `except AuthError` clause as long as the token is not
truly expired (leeway 0). -/
def getToken (env : TokenEnv) (s : AuthState) :
    Except AuthException String × AuthState × Effects :=
  match s.tok with
  | none => refresh env s
  | some t =>
    match env.decode t with
    | Except.error msg => (Except.error (AuthException.authError msg), s, ⟨0, 0⟩)
    | Except.ok payload =>
      if tokenExpired payload env.now s.leeway then
        match refresh env s with
        | (Except.ok t2, s2, e) => (Except.ok t2, s2, e)
        | (Except.error ex, s2, e) =>
          if catchesAuthError ex then
            if tokenExpired payload env.now 0 then (Except.error ex, s2, e)
            else (Except.ok t, s2, e)
          else (Except.error ex, s2, e)
      else (Except.ok t, s, ⟨0, 0⟩)

/-- Translation of the construction-time token validation at the end of
`Auth.__init__`: a truthy resolved token that fails to decode, or is already
expired with zero leeway, or has an `aud` claim different from a truthy
resolved `client_id`, is discarded (set to `None`); nothing is raised. -/
def validateToken (decode : String → Except String Payload) (now : Int)
    (client_id : Option String) (tok : Option String) : Option String :=
  if truthyO tok then
    match tok with
    | none => none
    | some t =>
      match decode t with
      | Except.error _ => none
      | Except.ok payload =>
        if tokenExpired payload now 0 ||
            (truthyO client_id && (payload.aud != client_id)) then none
        else some t
  else tok

/-- Translation of `base64url_decode`: pad the input with `=` (byte 61) to a
multiple of four bytes, then apply the stdlib urlsafe base64 decoder, which
is supplied as the parameter `b64dec`. -/
def base64url_decode (b64dec : List Nat → Except String (List Nat))
    (input : List Nat) : Except String (List Nat) :=
  let rem := input.length % 4
  let padded := if rem > 0 then input ++ List.replicate (4 - rem) 61 else input
  b64dec padded

/-- Decoding chain applied by `Auth._get_payload` to the claims segment:
base64url decoding (with padding), then utf-8 decoding, then JSON parsing.
The three stdlib decoders are supplied as parameters. -/
def decodeSegment (b64dec : List Nat → Except String (List Nat))
    (utf8dec : List Nat → Except String String)
    (jsonLoads : String → Except String Payload)
    (claims : List Nat) : Except String Payload :=
  match base64url_decode b64dec claims with
  | Except.error e => Except.error e
  | Except.ok bs =>
    match utf8dec bs with
    | Except.error e => Except.error e
    | Except.ok str =>
      match jsonLoads str with
      | Except.error e => Except.error e
      | Except.ok p => Except.ok p

/-- Translation of `Auth._get_payload` on a byte-string token: split on the
dot byte (46), take the segment at index 1 (an out-of-range index raises,
and is caught like every other failure, as the token-parse `AuthError`),
and run the decoding chain on that segment alone. -/
def getPayload (b64dec : List Nat → Except String (List Nat))
    (utf8dec : List Nat → Except String String)
    (jsonLoads : String → Except String Payload)
    (token : List Nat) : Except String Payload :=
  match (splitOn 46 token)[1]? with
  | none => Except.error "Unable to read token"
  | some claims =>
    match decodeSegment b64dec utf8dec jsonLoads claims with
    | Except.error e => Except.error ("Unable to read token: " ++ e)
    | Except.ok p => Except.ok p

/-- Boolean success test for an `Except` result. -/
def exOk {ε α : Type} : Except ε α → Bool
  | Except.ok _ => true
  | Except.error _ => false

/-- Value of the source constant `JWT_TOKEN_PREFIX`, the marker of the
derived per-secret cache filenames. -/
def jwtTokenPfx : String := "jwt_token_"

/-- Outcome of the `os.rename` over the destination: success, the Windows
`FileExistsError`, or any other error. -/
inductive RenameOutcome where
  | ok
  | fileExistsErr
  | otherErr
deriving DecidableEq, Repr

/-- Failure profile of the filesystem operations performed by
`Auth._write_token_info`, one flag per fallible step in source order. -/
structure WriteEnv where
  mkdirsOk : Bool
  mkstempOk : Bool
  dumpOk : Bool
  chmodOk : Bool
  rename1 : RenameOutcome
  removeDestOk : Bool
  rename2Ok : Bool
deriving DecidableEq, Repr

/-- State of the write when the `finally` block of `Auth._write_token_info`
runs: whether a warning was emitted, what content (if any) was installed at
the destination, and whether the temporary file still exists on disk. -/
structure WriteBodyOut where
  warned : Bool
  written : Option TokenInfo
  tempExists : Bool
deriving DecidableEq, Repr

/-- Steps of `Auth._write_token_info` from the `json.dump` on: dump, chmod,
rename, and on a `FileExistsError` the destination removal and the retried
rename.  Any failure is caught by the enclosing handler, which warns only
when `suppress_warning` is still false. -/
def writeSteps (env : WriteEnv) (ti : TokenInfo) (suppress : Bool) : WriteBodyOut :=
  if !env.dumpOk then { warned := !suppress, written := none, tempExists := true }
  else if !env.chmodOk then { warned := !suppress, written := none, tempExists := true }
  else
    match env.rename1 with
    | RenameOutcome.ok => { warned := false, written := some ti, tempExists := false }
    | RenameOutcome.otherErr => { warned := !suppress, written := none, tempExists := true }
    | RenameOutcome.fileExistsErr =>
      if !env.removeDestOk then { warned := !suppress, written := none, tempExists := true }
      else if env.rename2Ok then { warned := false, written := some ti, tempExists := false }
      else { warned := !suppress, written := none, tempExists := true }

/-- Body of `Auth._write_token_info` up to the `finally` block, with the
derived-filename test already evaluated to `derived`: ensure the directory,
create the temp file, and when the destination matches the derived
per-secret pattern replace the payload by its `jwt_token` field alone
(a missing `jwt_token` key raises a `KeyError` there, caught with the
warning still unsuppressed) before running the remaining steps. -/
def writeBody (env : WriteEnv) (derived : Bool) (ti : TokenInfo) : WriteBodyOut :=
  if !env.mkdirsOk then { warned := true, written := none, tempExists := false }
  else if !env.mkstempOk then { warned := true, written := none, tempExists := false }
  else
    if derived then
      match ti.jwt_token with
      | none => { warned := true, written := none, tempExists := true }
      | some t => writeSteps env { emptyTokenInfo with jwt_token := some t } true
    else writeSteps env ti false

/-- Result of a complete `Auth._write_token_info` call.  `raised` records
whether an exception escaped to the caller and `tempLeft` whether the
temporary file survives the call. -/
structure WriteResult where
  warned : Bool
  raised : Bool
  written : Option TokenInfo
  tempLeft : Bool
deriving DecidableEq, Repr

/-- Completion of `Auth._write_token_info`: the body never lets an exception
escape past its handler, and the `finally` block removes the temporary file
whenever it still exists, so nothing is raised and no temp file is left. -/
def writeTokenInfoCore (env : WriteEnv) (derived : Bool) (ti : TokenInfo) :
    WriteResult :=
  let b := writeBody env derived ti
  { warned := b.warned, raised := false, written := b.written,
    tempLeft := if b.tempExists then false else false }

/-- Translation of `Auth._write_token_info`: the derived-filename test is the
Python substring test `JWT_TOKEN_PREFIX in path`. -/
def writeTokenInfo (env : WriteEnv) (path : String) (ti : TokenInfo) :
    WriteResult :=
  writeTokenInfoCore env (containsSub jwtTokenPfx.toList path.toList) ti

/-- Inputs of `Auth.__init__` that come from the process environment or from
external collaborators: the environment variables read during resolution,
the readable content of the filesystem, hashlib's sha1 hex digest, and the
claims decoder and clock used by the construction-time validation. -/
structure ResolveEnv where
  env_client_id : Option String
  env_legacy_client_id : Option String
  env_client_secret : Option String
  env_legacy_client_secret : Option String
  env_refresh_token : Option String
  env_token : Option String
  env_token_info_path : Option String
  no_jwt_cache : Bool
  home : String
  fs : String → Option TokenInfo
  sha1hex : String → String
  decode : String → Except String Payload
  now : Int

/-- The `token_info_path` argument of `Auth.__init__`: either left at its
default sentinel or explicitly given (possibly explicitly `None`). -/
inductive PathArg where
  | default
  | explicit (p : Option String)
deriving DecidableEq, Repr

/-- Arguments of `Auth.__init__` that take part in credential resolution. -/
structure ResolveArgs where
  client_id : Option String
  client_secret : Option String
  jwt_token : Option String
  refresh_token : Option String
  token_info_path : PathArg
  scope : Option (List String)
  leeway : Int
deriving Repr

def defaultTokenInfoDir (env : ResolveEnv) : String :=
  env.home ++ "/.earthone"

def defaultTokenInfoPath (env : ResolveEnv) : String :=
  defaultTokenInfoDir env ++ "/token_info.json"

/-- Translation of `Auth._read_token_info`: the no-cache environment toggle
short-circuits to an empty object, and any read failure (missing file, bad
JSON) also yields an empty object. -/
def readTokenInfo (env : ResolveEnv) (path : String) : TokenInfo :=
  if env.no_jwt_cache then emptyTokenInfo
  else (env.fs path).getD emptyTokenInfo

/-- Derived per-secret cache path built in `Auth.__init__`: a file in the
default token-info directory named by the sha1 hex digest of the refresh
token, surrounded by the fixed marker and the `.json` extension. -/
def derivedPathOf (env : ResolveEnv) (rt : String) : String :=
  defaultTokenInfoDir env ++ "/" ++ jwtTokenPfx ++ env.sha1hex rt ++ ".json"

/-- Resolution of `client_id` from argument and environment, in source
order: explicit argument, then `EARTHONE_CLIENT_ID`, then legacy
`CLIENT_ID`. -/
def resolvedClientId (env : ResolveEnv) (a : ResolveArgs) : Option String :=
  firstSome [a.client_id, env.env_client_id, env.env_legacy_client_id]

/-- Resolution of `client_secret` from argument and environment, in source
order: explicit argument, then `EARTHONE_CLIENT_SECRET`, then legacy
`CLIENT_SECRET`. -/
def resolvedClientSecret (env : ResolveEnv) (a : ResolveArgs) : Option String :=
  firstSome [a.client_secret, env.env_client_secret, env.env_legacy_client_secret]

/-- Resolution of `refresh_token` from argument and environment, before the
fallback to `client_secret`. -/
def resolvedRefresh0 (env : ResolveEnv) (a : ResolveArgs) : Option String :=
  firstSome [a.refresh_token, env.env_refresh_token]

/-- Resolved `refresh_token` after the source's fallback
`if not self.refresh_token: self.refresh_token = self.client_secret`. -/
def resolvedRefresh (env : ResolveEnv) (a : ResolveArgs) : Option String :=
  if truthyO (resolvedRefresh0 env a) then resolvedRefresh0 env a
  else resolvedClientSecret env a

/-- Resolution of the short-lived token from argument and environment:
explicit `jwt_token` argument, then `EARTHONE_TOKEN`. -/
def resolvedTok0 (env : ResolveEnv) (a : ResolveArgs) : Option String :=
  firstSome [a.jwt_token, env.env_token]

/-- Local variable `token_info_path` after the default-sentinel handling:
`None` when the default sentinel was passed. -/
def pathLocalOf (a : ResolveArgs) : Option String :=
  match a.token_info_path with
  | PathArg.default => none
  | PathArg.explicit p => p

/-- Attribute `self.token_info_path` after the default-sentinel handling:
with the sentinel it becomes the `EARTHONE_TOKEN_INFO_PATH` override or the
default path; otherwise the explicit argument. -/
def selfPath0 (env : ResolveEnv) (a : ResolveArgs) : Option String :=
  match a.token_info_path with
  | PathArg.default => some ((env.env_token_info_path).getD (defaultTokenInfoPath env))
  | PathArg.explicit p => p

/-- Branch condition of `Auth.__init__`: information was provided through
the environment or as argument (truthy resolved client id, refresh token,
or token). -/
def suppliedB (env : ResolveEnv) (a : ResolveArgs) : Bool :=
  truthyO (resolvedClientId env a) || truthyO (resolvedRefresh env a) ||
    truthyO (resolvedTok0 env a)

/-- Values of the `Auth` attributes after the three-way branch of
`Auth.__init__`, together with the `token_info` local and the cache-file
writes performed inside the branch. -/
structure BranchOut where
  cid : Option String
  cs : Option String
  rt : Option String
  tok : Option String
  path : Option String
  tiVar : TokenInfo
  writes : List (String × TokenInfo)
deriving Repr

/-- Translation of the three-way branch of `Auth.__init__`: explicit mode
with an explicit cache path (adopt the stored token on a full match),
explicit mode with a refresh token and a usable default cache directory
(derived per-secret cache file: persist a supplied token, or read a cached
one), or cache mode (the entire credential set comes from the file,
preferring the legacy token key over the primary one). -/
def resolveBranch (env : ResolveEnv) (a : ResolveArgs) : BranchOut :=
  let cid := resolvedClientId env a
  let cs := resolvedClientSecret env a
  let rt := resolvedRefresh env a
  let tok0 := resolvedTok0 env a
  let pathL := pathLocalOf a
  let sp := selfPath0 env a
  if suppliedB env a then
    if truthyO pathL then
      let ti :=
        match sp with
        | some p => if (env.fs p).isSome then readTokenInfo env p else emptyTokenInfo
        | none => emptyTokenInfo
      let tok :=
        if !truthyO tok0 && cid == ti.client_id && rt == ti.refresh_token then
          ti.jwt_token
        else tok0
      { cid := cid, cs := cs, rt := rt, tok := tok, path := sp, tiVar := ti,
        writes := [] }
    else
      match rt with
      | some r =>
        if (r != "") && truthyO sp then
          let dp := derivedPathOf env r
          if truthyO tok0 then
            { cid := cid, cs := cs, rt := rt, tok := tok0, path := some dp,
              tiVar := emptyTokenInfo,
              writes := [(dp, { emptyTokenInfo with jwt_token := tok0 })] }
          else
            { cid := cid, cs := cs, rt := rt,
              tok := (readTokenInfo env dp).jwt_token, path := some dp,
              tiVar := emptyTokenInfo, writes := [] }
        else
          { cid := cid, cs := cs, rt := rt, tok := tok0, path := sp,
            tiVar := emptyTokenInfo, writes := [] }
      | none =>
        { cid := cid, cs := cs, rt := rt, tok := tok0, path := sp,
          tiVar := emptyTokenInfo, writes := [] }
  else
    match sp with
    | some p =>
      if p != "" then
        let ti := readTokenInfo env p
        { cid := ti.client_id, cs := ti.client_secret, rt := ti.refresh_token,
          tok := firstSome [ti.alt_jwt_token, ti.jwt_token], path := sp,
          tiVar := ti, writes := [] }
      else
        { cid := cid, cs := cs, rt := rt, tok := tok0, path := sp,
          tiVar := emptyTokenInfo, writes := [] }
    | none =>
      { cid := cid, cs := cs, rt := rt, tok := tok0, path := sp,
        tiVar := emptyTokenInfo, writes := [] }

/-- Result of a complete credential resolution: the constructed state and
the cache-file writes performed during construction. -/
structure ResolveResult where
  state : AuthState
  writes : List (String × TokenInfo)
deriving Repr

/-- Translation of `Auth.__init__` after the branch: reconcile
`client_secret` and `refresh_token` (the refresh token wins), resolve
`scope` from the argument or the `token_info` local, and validate the
resolved token. -/
def resolve (env : ResolveEnv) (a : ResolveArgs) : ResolveResult :=
  let b := resolveBranch env a
  let cs2 := if truthyO b.rt then b.rt else b.cs
  let rt2 := if truthyO b.rt then b.rt
    else if truthyO b.cs then b.cs else b.rt
  let scope :=
    match a.scope with
    | some sc => some sc
    | none => b.tiVar.scope
  let tok2 := validateToken env.decode env.now b.cid b.tok
  { state :=
      { client_id := b.cid, client_secret := cs2, refresh_token := rt2,
        tok := tok2, scope := scope, leeway := a.leeway,
        token_info_path := b.path, payloadCache := none },
    writes := b.writes }

/-! Concrete instances used by the closed witness theorems below. -/

def wEnvC1 : TokenEnv :=
  { decode := fun _ => Except.ok ⟨some 1000, none, none, []⟩,
    now := 990,
    response := { status := 500, access_token := none, id_token := none } }

def wStateC1 : AuthState :=
  { client_id := some "cid", client_secret := some "sec",
    refresh_token := some "sec", tok := some "T", scope := none, leeway := 500,
    token_info_path := none, payloadCache := none }

def wEnvC8 : TokenEnv :=
  { decode := fun _ => Except.ok ⟨some 1000, none, none, []⟩,
    now := 0,
    response := { status := 200, access_token := some "N", id_token := none } }

def wStateC8 : AuthState :=
  { client_id := some "cid", client_secret := some "sec",
    refresh_token := some "sec", tok := some "T", scope := none, leeway := 500,
    token_info_path := some "h/.earthone/token_info.json",
    payloadCache := none }


def wEnvC4 : ResolveEnv :=
  { env_client_id := none, env_legacy_client_id := none,
    env_client_secret := none, env_legacy_client_secret := none,
    env_refresh_token := none, env_token := none,
    env_token_info_path := none, no_jwt_cache := false, home := "h",
    fs := fun _ => none, sha1hex := fun _ => "h4sh",
    decode := fun _ => Except.error "x", now := 0 }

def wArgsC4 : ResolveArgs :=
  { client_id := some "cid", client_secret := none, jwt_token := none,
    refresh_token := some "abc", token_info_path := PathArg.default,
    scope := none, leeway := 500 }

def wEnvC2 : ResolveEnv :=
  { env_client_id := some "B", env_legacy_client_id := some "C",
    env_client_secret := none, env_legacy_client_secret := none,
    env_refresh_token := none, env_token := none,
    env_token_info_path := none, no_jwt_cache := false, home := "h",
    fs := fun p => if p == "h/.earthone/token_info.json"
      then some { emptyTokenInfo with client_id := some "F" } else none,
    sha1hex := fun _ => "", decode := fun _ => Except.error "x", now := 0 }

def wArgsC2 : ResolveArgs :=
  { client_id := some "A", client_secret := none, jwt_token := none,
    refresh_token := none, token_info_path := PathArg.default,
    scope := none, leeway := 500 }

def wEnvC2b : ResolveEnv :=
  { env_client_id := none, env_legacy_client_id := none,
    env_client_secret := none, env_legacy_client_secret := none,
    env_refresh_token := none, env_token := none,
    env_token_info_path := none, no_jwt_cache := false, home := "h",
    fs := fun p => if p == "h/.earthone/token_info.json"
      then some { emptyTokenInfo with client_id := some "F" } else none,
    sha1hex := fun _ => "", decode := fun _ => Except.error "x", now := 0 }

def wArgsC2b : ResolveArgs :=
  { client_id := none, client_secret := none, jwt_token := none,
    refresh_token := none, token_info_path := PathArg.default,
    scope := none, leeway := 500 }

/-! Theorems. -/

theorem splitOn_ne_nil {α : Type} [BEq α] (sep : α) (l : List α) :
    splitOn sep l ≠ [] := by
  induction l with
  | nil => simp [splitOn]
  | cons x xs ih =>
    by_cases h : (x == sep) = true
    · simp [splitOn, h]
    · simp only [splitOn, Bool.not_eq_true] at *
      simp only [h]
      cases hs : splitOn sep xs <;> simp

theorem splitOn_length_one {α : Type} [BEq α] [LawfulBEq α] (sep : α)
    (l : List α) : ((splitOn sep l).length = 1) ↔ sep ∉ l := by
  induction l with
  | nil => simp [splitOn]
  | cons x xs ih =>
    by_cases h : x = sep
    · subst h
      have hne := splitOn_ne_nil x xs
      simp only [splitOn, beq_self_eq_true, if_true, List.length_cons]
      constructor
      · intro hlen
        exfalso
        have : (splitOn x xs).length = 0 := by omega
        exact hne (List.length_eq_zero.mp this)
      · intro hmem
        exact absurd (List.mem_cons_self x xs) hmem
    · have hb : (x == sep) = false := beq_eq_false_iff_ne.mpr h
      simp only [splitOn, hb, Bool.false_eq_true, if_false]
      cases hs : splitOn sep xs with
      | nil => exact absurd hs (splitOn_ne_nil sep xs)
      | cons hh tt =>
        rw [hs] at ih
        simp only [List.length_cons] at ih ⊢
        rw [List.mem_cons]
        constructor
        · intro hlen
          intro hor
          rcases hor with he | hm
          · exact h (by simpa using he.symm)
          · exact (ih.mp hlen) hm
        · intro hnot
          exact ih.mpr (fun hm => hnot (Or.inr hm))

theorem splitOn_headD {α : Type} [BEq α] [LawfulBEq α] (sep : α) (l : List α) :
    (splitOn sep l).headD [] = l.takeWhile (fun x => !(x == sep)) := by
  induction l with
  | nil => simp [splitOn]
  | cons x xs ih =>
    by_cases h : x = sep
    · subst h
      simp [splitOn]
    · have hb : (x == sep) = false := beq_eq_false_iff_ne.mpr h
      simp only [splitOn, hb, Bool.false_eq_true, if_false]
      cases hs : splitOn sep xs with
      | nil => exact absurd hs (splitOn_ne_nil sep xs)
      | cons hh tt =>
        rw [hs] at ih
        simp only [List.headD_cons] at ih
        simp [List.takeWhile_cons, hb, ih]

theorem catchesAuthError_true (ex : AuthException) : catchesAuthError ex = true := by
  cases ex <;> rfl

theorem getToken_of_no_token (env : TokenEnv) (s : AuthState) (h : s.tok = none) :
    getToken env s = refresh env s := by
  simp [getToken, h]

/-- C3: for every token payload with a numeric `exp` claim and every current
time `now`, the expiry test with leeway holds exactly when
`now + leeway > exp`; in particular `exp = now + leeway - 1` is treated as
needing refresh and `exp = now + leeway + 1` is not. -/
theorem leeway_boundary (e now leeway : Int) (aud org : Option String)
    (groups : List String) :
    (tokenExpired ⟨some e, aud, org, groups⟩ now leeway = true ↔
      now + leeway > e)
    ∧ tokenExpired ⟨some (now + leeway - 1), aud, org, groups⟩ now leeway = true
    ∧ tokenExpired ⟨some (now + leeway + 1), aud, org, groups⟩ now leeway = false := by
  refine ⟨?_, ?_, ?_⟩ <;> simp [tokenExpired]

theorem leeway_boundary_witness :
    tokenExpired ⟨some (990 + 500 - 1), none, none, []⟩ 990 500 = true
    ∧ tokenExpired ⟨some (990 + 500 + 1), none, none, []⟩ 990 500 = false :=
  ⟨(leeway_boundary 0 990 500 none none []).2.1,
   (leeway_boundary 0 990 500 none none []).2.2⟩

/-- C9: a payload lacking an `exp` claim is expired for every leeway, so a
resolved token decoding to such a payload is discarded by the
construction-time validation, and a state holding no token refreshes on
token access. -/
theorem missing_exp_always_expired :
    (∀ (p : Payload), p.exp = none →
      ∀ (now leeway : Int), tokenExpired p now leeway = true)
    ∧ (∀ (decode : String → Except String Payload) (now : Int)
        (cid : Option String) (t : String) (p : Payload),
        t ≠ "" → decode t = Except.ok p → p.exp = none →
        validateToken decode now cid (some t) = none)
    ∧ (∀ (env : TokenEnv) (s : AuthState), s.tok = none →
        getToken env s = refresh env s) := by
  refine ⟨?_, ?_, ?_⟩
  · intro p hp now leeway
    simp [tokenExpired, hp]
  · intro decode now cid t p ht hd hp
    have htr : (t != "") = true := by simpa using ht
    simp [validateToken, truthyO, htr, hd, tokenExpired, hp]
  · intro env s h
    exact getToken_of_no_token env s h

theorem missing_exp_always_expired_witness :
    tokenExpired ⟨none, none, none, []⟩ 0 0 = true
    ∧ validateToken (fun _ => Except.ok ⟨none, none, none, []⟩)
        5 none (some "T") = none :=
  ⟨missing_exp_always_expired.1 _ rfl 0 0,
   missing_exp_always_expired.2.1 _ 5 none "T" _ (by decide) rfl rfl⟩

/-- C6: after credential resolution, a non-empty resolved token that fails
to decode, or is already expired with zero leeway, or carries an `aud` claim
different from a truthy resolved `client_id`, is discarded (set to `None`)
by the construction-time validation, and a state holding no token performs a
refresh on the next token access. -/
theorem construction_token_validation (decode : String → Except String Payload)
    (now : Int) (cid : Option String) (t : String) (ht : t ≠ "") :
    (∀ msg, decode t = Except.error msg →
      validateToken decode now cid (some t) = none)
    ∧ (∀ p, decode t = Except.ok p → tokenExpired p now 0 = true →
        validateToken decode now cid (some t) = none)
    ∧ (∀ p c, decode t = Except.ok p → cid = some c → c ≠ "" →
        p.aud ≠ some c → validateToken decode now cid (some t) = none)
    ∧ (∀ (env : TokenEnv) (s : AuthState), s.tok = none →
        getToken env s = refresh env s) := by
  have htr : (t != "") = true := by simpa using ht
  refine ⟨?_, ?_, ?_, ?_⟩
  · intro msg hd
    simp [validateToken, truthyO, htr, hd]
  · intro p hd hexp
    simp [validateToken, truthyO, htr, hd, hexp]
  · intro p c hd hc hcne haud
    have hcr : (c != "") = true := by simpa using hcne
    have haudr : (p.aud != some c) = true := by simpa using haud
    simp [validateToken, truthyO, htr, hd, hc, hcr, haudr]
  · intro env s h
    exact getToken_of_no_token env s h

theorem construction_token_validation_witness :
    validateToken (fun _ => Except.error "bad") 0 none (some "T") = none :=
  (construction_token_validation (fun _ => Except.error "bad") 0 none "T"
    (by decide)).1 "bad" rfl

/-- C1: when the stored token decodes, its expiry is within the leeway
window, and the refresh attempt made by the token accessor fails, the
accessor swallows the error and returns the original stale token as long as
the true (leeway-0) expiry has not passed; once it has passed, the same
refresh failure is raised to the caller. -/
theorem token_soft_degrade_on_refresh_failure (env : TokenEnv) (s : AuthState)
    (t : String) (p : Payload) (ex : AuthException)
    (h1 : s.tok = some t)
    (h2 : env.decode t = Except.ok p)
    (h3 : tokenExpired p env.now s.leeway = true)
    (h4 : (refresh env s).1 = Except.error ex) :
    (tokenExpired p env.now 0 = false → (getToken env s).1 = Except.ok t)
    ∧ (tokenExpired p env.now 0 = true → (getToken env s).1 = Except.error ex) := by
  rcases hr : refresh env s with ⟨r, s2, e⟩
  rw [hr] at h4
  replace h4 : r = Except.error ex := h4
  subst h4
  constructor <;> intro h5 <;>
    simp [getToken, h1, h2, h3, hr, h5, catchesAuthError_true]

theorem token_soft_degrade_on_refresh_failure_witness :
    (getToken wEnvC1 wStateC1).1 = Except.ok "T" :=
  (token_soft_degrade_on_refresh_failure wEnvC1 wStateC1 "T"
      ⟨some 1000, none, none, []⟩
      (AuthException.oauthError "Could not retrieve token")
      rfl rfl (by decide) rfl).1 (by decide)

/-- C8: a token access on a state whose token decodes and is not within the
leeway window returns that token, performs no network POST and no disk
write, and leaves the state unchanged, so a second access in succession
returns the same token with the same absence of effects. -/
theorem token_access_idempotent (env : TokenEnv) (s : AuthState) (t : String)
    (p : Payload)
    (h1 : s.tok = some t) (h2 : env.decode t = Except.ok p)
    (h3 : tokenExpired p env.now s.leeway = false) :
    getToken env s = (Except.ok t, s, ⟨0, 0⟩)
    ∧ getToken env (getToken env s).2.1 = (Except.ok t, s, ⟨0, 0⟩) := by
  have h : getToken env s = (Except.ok t, s, (⟨0, 0⟩ : Effects)) := by
    simp [getToken, h1, h2, h3]
  refine ⟨h, ?_⟩
  rw [h]
  exact h

theorem token_access_idempotent_witness :
    getToken wEnvC8 wStateC8 = (Except.ok "T", wStateC8, ⟨0, 0⟩)
    ∧ getToken wEnvC8 (getToken wEnvC8 wStateC8).2.1
        = (Except.ok "T", wStateC8, ⟨0, 0⟩) :=
  token_access_idempotent wEnvC8 wStateC8 "T" ⟨some 1000, none, none, []⟩
    rfl rfl (by decide)

/-- C7: a group string without a colon is always yielded by the
active-groups filter; a group string containing a colon is yielded if and
only if the `org` claim is present and non-empty and equals the substring
before the first colon. -/
theorem active_groups_filter (p : Payload) (g : String) (hg : g ∈ p.groups) :
    ((':' ∉ g.toList) → g ∈ activeGroups p)
    ∧ ((':' ∈ g.toList) →
        (g ∈ activeGroups p ↔
          truthyO p.org = true ∧ p.org = some (beforeFirstColon g))) := by
  constructor
  · intro hno
    have hlen : (splitOn ':' g.toList).length = 1 :=
      (splitOn_length_one ':' g.toList).mpr hno
    unfold activeGroups
    rw [List.mem_filter]
    refine ⟨hg, ?_⟩
    have h2 : (if (splitOn ':' g.toList).length = 1 then true
        else match p.org with
          | some o => (o != "") && ((splitOn ':' g.toList).headD [] == o.toList)
          | none => false) = true := by rw [if_pos hlen]
    exact h2
  · intro hyes
    have hlen : (splitOn ':' g.toList).length ≠ 1 := fun h =>
      ((splitOn_length_one ':' g.toList).mp h) hyes
    unfold activeGroups
    rw [List.mem_filter]
    simp only [hg, true_and]
    rw [if_neg hlen]
    cases horg : p.org with
    | none => simp [truthyO]
    | some o =>
      obtain ⟨ol⟩ := o
      rw [splitOn_headD]
      simp only [truthyO, Option.some.injEq, beforeFirstColon]
      constructor
      · intro hb
        rw [Bool.and_eq_true] at hb
        obtain ⟨h1, h2⟩ := hb
        refine ⟨h1, ?_⟩
        have : ol = (String.mk ol).toList := rfl
        have heq : (String.mk ol).toList = g.toList.takeWhile (fun c => !(c == ':')) := by
          exact (beq_iff_eq.mp h2).symm
        exact congrArg String.mk heq
      · intro hb
        obtain ⟨h1, h2⟩ := hb
        rw [Bool.and_eq_true]
        refine ⟨h1, ?_⟩
        have heq : ol = g.toList.takeWhile (fun c => !(c == ':')) :=
          congrArg String.toList h2
        exact beq_iff_eq.mpr heq.symm

theorem active_groups_filter_witness :
    "global-role" ∈ activeGroups ⟨none, none, some "acme", ["acme:device-admin", "global-role"]⟩
    ∧ "acme:device-admin" ∈ activeGroups ⟨none, none, some "acme", ["acme:device-admin", "global-role"]⟩ :=
  ⟨(active_groups_filter ⟨none, none, some "acme", ["acme:device-admin", "global-role"]⟩
      "global-role" (by simp)).1 (by decide),
   ((active_groups_filter ⟨none, none, some "acme", ["acme:device-admin", "global-role"]⟩
      "acme:device-admin" (by simp)).2 (by decide)).mpr (by constructor <;> decide)⟩

/-- C10: the claims decoder fails exactly when the input has fewer than two
dot-separated segments or the decoding chain fails on the segment at index
1; the segment at index 1 is the only part of the input examined, so two
inputs with the same index-1 segment decode identically. -/
theorem get_payload_error_structure
    (b64dec : List Nat → Except String (List Nat))
    (utf8dec : List Nat → Except String String)
    (jsonLoads : String → Except String Payload)
    (token : List Nat) :
    (exOk (getPayload b64dec utf8dec jsonLoads token) = true ↔
      ∃ claims, (splitOn 46 token)[1]? = some claims ∧
        exOk (decodeSegment b64dec utf8dec jsonLoads claims) = true)
    ∧ ((splitOn 46 token)[1]? = none ↔ (splitOn 46 token).length < 2)
    ∧ (∀ t2 : List Nat, (splitOn 46 token)[1]? = (splitOn 46 t2)[1]? →
        getPayload b64dec utf8dec jsonLoads token
          = getPayload b64dec utf8dec jsonLoads t2) := by
  refine ⟨?_, ?_, ?_⟩
  · cases hs : (splitOn 46 token)[1]? with
    | none => simp [getPayload, hs, exOk]
    | some claims =>
      simp only [getPayload, hs]
      cases hd : decodeSegment b64dec utf8dec jsonLoads claims with
      | error e => simp [exOk, hd]
      | ok p => simp [exOk, hd]
  · rw [List.getElem?_eq_none_iff]
    omega
  · intro t2 he
    simp only [getPayload, he]

theorem get_payload_error_structure_witness :
    exOk (getPayload (fun _ => Except.ok []) (fun _ => Except.ok "")
      (fun _ => Except.ok ⟨some 1, none, none, []⟩) [97, 46, 98]) = true
    ∧ getPayload (fun _ => Except.ok []) (fun _ => Except.ok "")
        (fun _ => Except.ok ⟨some 1, none, none, []⟩) [97, 46, 98]
      = getPayload (fun _ => Except.ok []) (fun _ => Except.ok "")
        (fun _ => Except.ok ⟨some 1, none, none, []⟩) [99, 46, 98] :=
  ⟨(get_payload_error_structure (fun _ => Except.ok []) (fun _ => Except.ok "")
      (fun _ => Except.ok ⟨some 1, none, none, []⟩) [97, 46, 98]).1.mpr
      ⟨[98], rfl, rfl⟩,
   (get_payload_error_structure (fun _ => Except.ok []) (fun _ => Except.ok "")
      (fun _ => Except.ok ⟨some 1, none, none, []⟩) [97, 46, 98]).2.2
      [99, 46, 98] rfl⟩

theorem writeSteps_suppressed_warned (env : WriteEnv) (ti : TokenInfo) :
    (writeSteps env ti true).warned = false := by
  rcases env with ⟨m1, m2, du, ch, r1, rd, r2⟩
  cases du <;> cases ch <;> cases r1 <;> cases rd <;> cases r2 <;>
    simp [writeSteps]

theorem writeSteps_warned_iff (env : WriteEnv) (ti : TokenInfo) :
    ((writeSteps env ti false).warned = true ↔
      (writeSteps env ti false).written = none) := by
  rcases env with ⟨m1, m2, du, ch, r1, rd, r2⟩
  cases du <;> cases ch <;> cases r1 <;> cases rd <;> cases r2 <;>
    simp [writeSteps]

theorem writeSteps_written (env : WriteEnv) (ti : TokenInfo) (sup : Bool)
    (w : TokenInfo) (hw : (writeSteps env ti sup).written = some w) : w = ti := by
  rcases env with ⟨m1, m2, du, ch, r1, rd, r2⟩
  cases du <;> cases ch <;> cases r1 <;> cases rd <;> cases r2 <;>
    simp_all [writeSteps]

/-- C5 (amended): the token-info write never propagates an exception and in
every outcome the temporary file is removed if it still exists; a failure
emits a suppressible warning, except that on a path matching the derived
per-secret pattern any failure after the payload strip (dump, chmod or
rename) is silently suppressed, while a directory-creation or temp-file
creation failure still warns (as does a stripped payload missing its
token). -/
theorem write_token_info_amended (env : WriteEnv) (path : String)
    (ti : TokenInfo) :
    (writeTokenInfo env path ti).raised = false
    ∧ (writeTokenInfo env path ti).tempLeft = false
    ∧ (containsSub jwtTokenPfx.toList path.toList = false →
        ((writeTokenInfo env path ti).warned = true ↔
          (writeTokenInfo env path ti).written = none))
    ∧ (containsSub jwtTokenPfx.toList path.toList = true →
        ti.jwt_token = none →
        (writeTokenInfo env path ti).warned = true
        ∧ (writeTokenInfo env path ti).written = none)
    ∧ (containsSub jwtTokenPfx.toList path.toList = true →
        ti.jwt_token ≠ none →
        ((writeTokenInfo env path ti).warned = true ↔
          (env.mkdirsOk = false ∨ env.mkstempOk = false))) := by
  unfold writeTokenInfo
  generalize containsSub jwtTokenPfx.toList path.toList = d
  refine ⟨rfl, by simp [writeTokenInfoCore], ?_, ?_, ?_⟩
  · rintro rfl
    cases hm1 : env.mkdirsOk with
    | false => simp [writeTokenInfoCore, writeBody, hm1]
    | true =>
      cases hm2 : env.mkstempOk with
      | false => simp [writeTokenInfoCore, writeBody, hm1, hm2]
      | true =>
        have h := writeSteps_warned_iff env ti
        simpa [writeTokenInfoCore, writeBody, hm1, hm2] using h
  · rintro rfl hj
    cases hm1 : env.mkdirsOk with
    | false => simp [writeTokenInfoCore, writeBody, hm1]
    | true =>
      cases hm2 : env.mkstempOk with
      | false => simp [writeTokenInfoCore, writeBody, hm1, hm2]
      | true => simp [writeTokenInfoCore, writeBody, hm1, hm2, hj]
  · rintro rfl hj
    obtain ⟨tk, htk⟩ := Option.ne_none_iff_exists'.mp hj
    cases hm1 : env.mkdirsOk with
    | false => simp [writeTokenInfoCore, writeBody, hm1]
    | true =>
      cases hm2 : env.mkstempOk with
      | false => simp [writeTokenInfoCore, writeBody, hm1, hm2]
      | true =>
        have hsup :=
          writeSteps_suppressed_warned env { emptyTokenInfo with jwt_token := some tk }
        simp [writeTokenInfoCore, writeBody, hm1, hm2, htk, hsup]

/-- C5 counterexample: on a destination path matching the derived
per-secret pattern, a chmod failure (with every earlier step succeeding)
installs nothing at the destination yet emits no warning, contradicting the
claim that any failure during directory creation, temp-file write, chmod or
rename emits a suppressible warning. -/
theorem write_chmod_failure_silent_on_derived :
    (writeTokenInfo ⟨true, true, true, false, RenameOutcome.ok, true, true⟩
        "jwt_token_x" { emptyTokenInfo with jwt_token := some "T" }).written = none
    ∧ (writeTokenInfo ⟨true, true, true, false, RenameOutcome.ok, true, true⟩
        "jwt_token_x" { emptyTokenInfo with jwt_token := some "T" }).warned
        = false := by
  constructor <;> rfl

theorem write_token_info_amended_witness :
    (writeTokenInfo ⟨true, true, false, true, RenameOutcome.ok, true, true⟩
        "p" emptyTokenInfo).raised = false
    ∧ ((writeTokenInfo ⟨true, true, false, true, RenameOutcome.ok, true, true⟩
        "p" emptyTokenInfo).warned = true ↔
        (writeTokenInfo ⟨true, true, false, true, RenameOutcome.ok, true, true⟩
          "p" emptyTokenInfo).written = none) :=
  ⟨(write_token_info_amended ⟨true, true, false, true, RenameOutcome.ok, true, true⟩
      "p" emptyTokenInfo).1,
   (write_token_info_amended ⟨true, true, false, true, RenameOutcome.ok, true, true⟩
      "p" emptyTokenInfo).2.2.1 (by decide)⟩

theorem writeCore_derived_written (env : WriteEnv) (ti w : TokenInfo)
    (hw : (writeTokenInfoCore env true ti).written = some w) :
    w.client_id = none ∧ w.client_secret = none ∧ w.refresh_token = none := by
  cases hm1 : env.mkdirsOk with
  | false => simp [writeTokenInfoCore, writeBody, hm1] at hw
  | true =>
    cases hm2 : env.mkstempOk with
    | false => simp [writeTokenInfoCore, writeBody, hm1, hm2] at hw
    | true =>
      cases hj : ti.jwt_token with
      | none => simp [writeTokenInfoCore, writeBody, hm1, hm2, hj] at hw
      | some tk =>
        have hw2 : (writeSteps env { emptyTokenInfo with jwt_token := some tk }
            true).written = some w := by
          simpa [writeTokenInfoCore, writeBody, hm1, hm2, hj] using hw
        have hwt := writeSteps_written env
          { emptyTokenInfo with jwt_token := some tk } true w hw2
        subst hwt
        simp [emptyTokenInfo]

/-- C4: resolving with a truthy refresh token and no explicit cache path
(and a usable default cache directory) rewrites the cache path to the file
in the default directory named by the sha1 hex digest of the refresh token,
and every token-info write to a path matching the derived naming pattern
strips the payload down to the `jwt_token` field, so `client_id`,
`client_secret` and `refresh_token` are never written into such a file. -/
theorem derived_cache_secret_free (env : ResolveEnv) (a : ResolveArgs)
    (r : String)
    (h1 : a.token_info_path = PathArg.default)
    (h2 : truthyO (selfPath0 env a) = true)
    (h3 : resolvedRefresh env a = some r)
    (h4 : r ≠ "") :
    (resolve env a).state.token_info_path = some (derivedPathOf env r)
    ∧ (∀ (wenv : WriteEnv) (path : String) (ti w : TokenInfo),
        containsSub jwtTokenPfx.toList path.toList = true →
        (writeTokenInfo wenv path ti).written = some w →
        w.client_id = none ∧ w.client_secret = none ∧ w.refresh_token = none) := by
  constructor
  · have hr4 : (r != "") = true := by simpa using h4
    have hrt : truthyO (resolvedRefresh env a) = true := by
      rw [h3]; simp [truthyO, hr4]
    have hsup : suppliedB env a = true := by simp [suppliedB, hrt]
    have hpl : pathLocalOf a = none := by simp [pathLocalOf, h1]
    have htn : truthyO (none : Option String) = false := rfl
    show (resolveBranch env a).path = some (derivedPathOf env r)
    unfold resolveBranch
    simp only [hsup, if_true, hpl, htn, h3, hr4, h2, Bool.and_self,
      Bool.false_eq_true, if_false]
    cases htok : truthyO (resolvedTok0 env a) <;> simp [htok]
  · intro wenv path ti w hc hw
    unfold writeTokenInfo at hw
    rw [hc] at hw
    exact writeCore_derived_written wenv ti w hw

theorem derived_cache_secret_free_witness :
    (resolve wEnvC4 wArgsC4).state.token_info_path
      = some "h/.earthone/jwt_token_h4sh.json" := by
  have h := (derived_cache_secret_free wEnvC4 wArgsC4 "abc" rfl (by decide) rfl
    (by decide)).1
  rw [h]
  rfl

/-- C2: the resolved `client_id` is the first value present among the
explicit argument, the `EARTHONE_CLIENT_ID` environment variable and the
legacy `CLIENT_ID` environment variable whenever any of client id, refresh
token / client secret, or a token was supplied through argument or
environment; only when none was supplied (and a cache path is configured)
does the cache file's `client_id` get used. -/
theorem client_id_precedence (env : ResolveEnv) (a : ResolveArgs) :
    (suppliedB env a = true →
      (resolve env a).state.client_id =
        firstSome [a.client_id, env.env_client_id, env.env_legacy_client_id])
    ∧ (suppliedB env a = false →
      (resolve env a).state.client_id =
        (match selfPath0 env a with
          | some p =>
            if p != "" then (readTokenInfo env p).client_id
            else firstSome [a.client_id, env.env_client_id,
              env.env_legacy_client_id]
          | none => firstSome [a.client_id, env.env_client_id,
              env.env_legacy_client_id])) := by
  constructor
  · intro h
    show (resolveBranch env a).cid = resolvedClientId env a
    unfold resolveBranch
    simp only [h, if_true]
    cases hp : truthyO (pathLocalOf a) with
    | true => simp [hp]
    | false =>
      simp only [hp, Bool.false_eq_true, if_false]
      cases hrt : resolvedRefresh env a with
      | none => rfl
      | some r =>
        cases hcond : (r != "") && truthyO (selfPath0 env a) with
        | false => simp [hcond]
        | true =>
          simp only [hcond, if_true]
          cases htok : truthyO (resolvedTok0 env a) <;> simp [htok]
  · intro h
    show (resolveBranch env a).cid = _
    unfold resolveBranch
    simp only [h, Bool.false_eq_true, if_false]
    cases hsp : selfPath0 env a with
    | none => rfl
    | some p =>
      cases hp : (p != "") with
      | false => simp [hp, resolvedClientId]
      | true => simp [hp]

theorem client_id_precedence_witness :
    (resolve wEnvC2 wArgsC2).state.client_id = some "A"
    ∧ (resolve wEnvC2b wArgsC2b).state.client_id = some "F" := by
  constructor
  · have h := (client_id_precedence wEnvC2 wArgsC2).1 (by decide)
    rw [h]
    rfl
  · have h := (client_id_precedence wEnvC2b wArgsC2b).2 (by decide)
    rw [h]
    rfl
